import Mathlib

/- Shallow embedding of the Bayes particle-simulation core of
   src/src/BayesVisualization.tsx: the geometry layout resolver
   (getDynamicShelfLayout), the per-ball physics and collision step (the body
   of the map inside animate), outcome classification and running statistics
   (the setStats updater inside animate), the upstream probability defaults
   (getContextProbabilities, where the JavaScript or-operator substitutes a
   default for any falsy value), and the component-level controls
   (toggleAnimation, reset, the drop-frequency range input).

   Machine doubles are modelled as rationals; a possibly-NaN upstream value is
   modelled as an Option of a rational, with none standing for NaN (NaN and 0
   are exactly the falsy numbers the or-operator replaces). Randomness (the
   spawn gate, the spawned positions and velocities) is passed in explicitly
   as oracle data: one pair of rationals per spawned ball. -/

def cfgWidth : ℚ := 675

def cfgHeight : ℚ := 300

def cfgRedShelfY : ℚ := 100

def cfgBlueShelfY : ℚ := 200

def cfgShelfHeight : ℚ := 6

def cfgGravity : ℚ := 1/20

def cfgBallRadius : ℚ := 4

def cfgSpeedMultiplier : ℚ := 1/2

/-- Particle record, mirroring the Ball interface of the source. -/
structure Ball where
  id : ℕ
  x : ℚ
  y : ℚ
  vx : ℚ
  vy : ℚ
  radius : ℚ
  hitRed : Bool
  hitBlue : Bool
  active : Bool
  bounceCount : ℕ
deriving DecidableEq

/-- Running statistics record, mirroring the Statistics interface. -/
structure Statistics where
  redOnly : ℕ
  blueOnly : ℕ
  both : ℕ
  neither : ℕ
  total : ℕ
deriving DecidableEq

/-- Result record of getDynamicShelfLayout. -/
structure ShelfLayout where
  redShelfX : ℚ
  redWidth : ℚ
  blueShelfX : ℚ
  blueWidth : ℚ
  overlapWidth : ℚ
  ballSpawnStart : ℚ
  ballSpawnWidth : ℚ
deriving DecidableEq

/-- Geometry layout resolver: direct translation of getDynamicShelfLayout,
applied to the three probabilities it destructures from the context. -/
def getDynamicShelfLayout (pA pB pAandB : ℚ) : ShelfLayout :=
  let ballSpawnWidth := cfgWidth - 100
  let ballSpawnStart : ℚ := 50
  let redWidth := max (pA * ballSpawnWidth) 20
  let blueWidth := max (pB * ballSpawnWidth) 20
  let overlapWidth := max (pAandB * ballSpawnWidth) 0
  let totalSystemWidth := redWidth + blueWidth - overlapWidth
  let systemStartX := ballSpawnStart + (ballSpawnWidth - totalSystemWidth) / 2
  let redShelfX := systemStartX
  let blueShelfX := redShelfX + redWidth - overlapWidth
  let actualOverlapWidth := max 0 (redShelfX + redWidth - blueShelfX)
  { redShelfX := redShelfX
    redWidth := redWidth
    blueShelfX := blueShelfX
    blueWidth := blueWidth
    overlapWidth := actualOverlapWidth
    ballSpawnStart := ballSpawnStart
    ballSpawnWidth := ballSpawnWidth }

/-- Integration stage of the physics update: gravity into vy first, then the
position moves with the already-updated vy, exactly as the three in-place
assignments at the top of the map inside animate. -/
def integrateBall (b : Ball) : Ball :=
  { b with
    vy := b.vy + cfgGravity * cfgSpeedMultiplier
    x := b.x + b.vx * cfgSpeedMultiplier
    y := b.y + (b.vy + cfgGravity * cfgSpeedMultiplier) * cfgSpeedMultiplier }

/-- Red-shelf collision stage, applied to the already-integrated ball: on
first contact the flag goes sticky, the ball rests on top of the shelf, the
vertical velocity inverts and damps by 0.4, the horizontal velocity zeroes. -/
def resolveRed (L : ShelfLayout) (c : Ball) : Ball :=
  if c.hitRed = false ∧ c.x + c.radius > L.redShelfX ∧
      c.x - c.radius < L.redShelfX + L.redWidth ∧
      c.y + c.radius > cfgRedShelfY ∧
      c.y - c.radius < cfgRedShelfY + cfgShelfHeight then
    { c with
      hitRed := true
      y := cfgRedShelfY - c.radius
      vy := -|c.vy| * (2/5)
      vx := 0 }
  else c

/-- Blue-shelf collision stage, identical in shape to the red one and applied
to the ball as the red stage left it. -/
def resolveBlue (L : ShelfLayout) (c : Ball) : Ball :=
  if c.hitBlue = false ∧ c.x + c.radius > L.blueShelfX ∧
      c.x - c.radius < L.blueShelfX + L.blueWidth ∧
      c.y + c.radius > cfgBlueShelfY ∧
      c.y - c.radius < cfgBlueShelfY + cfgShelfHeight then
    { c with
      hitBlue := true
      y := cfgBlueShelfY - c.radius
      vy := -|c.vy| * (2/5)
      vx := 0 }
  else c

/-- Floor stage: past the floor the ball either bounces (bounce budget left
and speed above 0.2: snap to the floor, invert and damp vy by 0.35, zero vx,
count the bounce) or retires. -/
def resolveFloor (c : Ball) : Ball :=
  if c.y + c.radius > cfgHeight then
    if c.bounceCount < 4 ∧ |c.vy| > 1/5 then
      { c with
        y := cfgHeight - c.radius
        vy := -c.vy * (7/20)
        vx := 0
        bounceCount := c.bounceCount + 1 }
    else { c with active := false }
  else c

/-- Final retirement check: far below the canvas, or bounce budget exhausted
with vertical speed decayed under 0.1. -/
def resolveSettle (c : Ball) : Ball :=
  if c.y > cfgHeight + 100 ∨ (4 ≤ c.bounceCount ∧ |c.vy| < 1/10) then
    { c with active := false }
  else c

/-- One physics update of a single ball: the body of the map inside animate.
An inactive ball is returned unchanged; otherwise the four stages run in the
order of the source's in-place mutations. -/
def stepBall (L : ShelfLayout) (b : Ball) : Ball :=
  if b.active = false then b
  else resolveSettle (resolveFloor (resolveBlue L (resolveRed L (integrateBall b))))

/-- Classification of one retired ball into its bucket, plus the total bump:
the body of the forEach inside the setStats updater of animate. -/
def classify (s : Statistics) (b : Ball) : Statistics :=
  if b.hitRed && b.hitBlue then
    { s with both := s.both + 1, total := s.total + 1 }
  else if b.hitRed && !b.hitBlue then
    { s with redOnly := s.redOnly + 1, total := s.total + 1 }
  else if !b.hitRed && b.hitBlue then
    { s with blueOnly := s.blueOnly + 1, total := s.total + 1 }
  else
    { s with neither := s.neither + 1, total := s.total + 1 }

/-- Accumulate the batch of balls that went inactive this tick. -/
def countStats (s : Statistics) (l : List Ball) : Statistics :=
  l.foldl classify s

/-- Ball construction at spawn time (the literal inside the spawn loop of
animate); x and vy carry the two random draws. -/
def mkBall (id : ℕ) (x vy : ℚ) : Ball :=
  { id := id
    x := x
    y := -20
    vx := 0
    vy := vy
    radius := cfgBallRadius
    hitRed := false
    hitBlue := false
    active := true
    bounceCount := 0 }

/-- Spawn loop of animate: one ball per oracle pair, ids from the monotonic
counter. -/
def spawnBalls : ℕ → List (ℚ × ℚ) → List Ball
  | _, [] => []
  | n, (x, vy) :: rest => mkBall n x vy :: spawnBalls (n + 1) rest

/-- Simulation-core state: the balls array, the statistics, and the ball-id
counter (ballIdRef). -/
structure SimState where
  balls : List Ball
  stats : Statistics
  nextId : ℕ
deriving DecidableEq

def initStats : Statistics :=
  { redOnly := 0, blueOnly := 0, both := 0, neither := 0, total := 0 }

def initSim : SimState :=
  { balls := [], stats := initStats, nextId := 0 }

/-- One completed tick of animate while running: append the spawned balls,
run the physics step on every ball, hand every ball that is inactive at the
end of the step to the classifier, and publish only the still-active balls.
The stochastic spawn gate and counts are abstracted into the explicit oracle
list rnd (one entry per spawned ball). -/
def tick (L : ShelfLayout) (rnd : List (ℚ × ℚ)) (s : SimState) : SimState :=
  let stepped := (s.balls ++ spawnBalls s.nextId rnd).map (stepBall L)
  let retired := stepped.filter (fun b => !b.active)
  { balls := stepped.filter (fun b => b.active),
    stats := countStats s.stats retired,
    nextId := s.nextId + rnd.length }

/-- Balls that went inactive during the given tick — exactly the batch the
tick hands to the classifier. -/
def retiredOf (L : ShelfLayout) (rnd : List (ℚ × ℚ)) (s : SimState) : List Ball :=
  ((s.balls ++ spawnBalls s.nextId rnd).map (stepBall L)).filter (fun b => !b.active)

/-- Effect of reset() on the simulation-core fields: empty ball list, zeroed
statistics, zeroed id counter. -/
def resetSim (_s : SimState) : SimState :=
  { balls := [], stats := initStats, nextId := 0 }

/-- States reachable from the initial state by completed ticks and resets. -/
inductive Reachable : SimState → Prop
  | start : Reachable initSim
  | stepped (L : ShelfLayout) (rnd : List (ℚ × ℚ)) (s : SimState) :
      Reachable s → Reachable (tick L rnd s)
  | cleared (s : SimState) : Reachable s → Reachable (resetSim s)

/-- Sum-of-buckets statistics invariant of the spec. -/
def statsInv (s : Statistics) : Prop :=
  s.redOnly + s.blueOnly + s.both + s.neither = s.total

/-- Componentwise comparison of statistics counters. -/
def statsLe (s t : Statistics) : Prop :=
  s.redOnly ≤ t.redOnly ∧ s.blueOnly ≤ t.blueOnly ∧ s.both ≤ t.both ∧
    s.neither ≤ t.neither ∧ s.total ≤ t.total

/-- Upstream value as returned by getVariable: an untrusted double. The none
case stands for NaN; some q is an ordinary finite value. -/
abbrev JSNum : Type := Option ℚ

/-- JavaScript or-operator on a number with a literal default: the left value
is kept when truthy; NaN and 0 are the falsy numbers and fall to the default. -/
def jsOr : JSNum → ℚ → JSNum
  | none, d => some d
  | some x, d => if x = 0 then some d else some x

/-- Falsiness of a JavaScript number: NaN or 0. -/
def isFalsyNum : JSNum → Bool
  | none => true
  | some x => decide (x = 0)

/-- Raw upstream probabilities, one per getVariable call in
getContextProbabilities. -/
structure UpstreamProbs where
  pA : JSNum
  pB : JSNum
  pAandB : JSNum
  pAandNotB : JSNum
  pBandNotA : JSNum
  pNotAandNotB : JSNum

/-- Values the component actually uses downstream. -/
structure ContextProbs where
  pA : JSNum
  pB : JSNum
  pAandB : JSNum
  pAandNotB : JSNum
  pBandNotA : JSNum
  pNotAandNotB : JSNum

/-- Direct translation of getContextProbabilities: each getVariable result is
passed through the or-operator with its literal default. -/
def getContextProbabilities (u : UpstreamProbs) : ContextProbs :=
  { pA := jsOr u.pA (1/5)
    pB := jsOr u.pB (1/5)
    pAandB := jsOr u.pAandB (1/10)
    pAandNotB := jsOr u.pAandNotB (1/10)
    pBandNotA := jsOr u.pBandNotA (1/10)
    pNotAandNotB := jsOr u.pNotAandNotB (7/10) }

/-- Layout as computed by the component from the upstream values: the three
probabilities destructured from getContextProbabilities feed
getDynamicShelfLayout. The getD 0 unwrapping is inert: no field of
getContextProbabilities is ever none (proved below). -/
def layoutFromContext (u : UpstreamProbs) : ShelfLayout :=
  let p := getContextProbabilities u
  getDynamicShelfLayout (p.pA.getD 0) (p.pB.getD 0) (p.pAandB.getD 0)

/-- Full component-level state: the running flag, the balls array, the drop
frequency, the statistics, and the ball-id counter. -/
structure ComponentState where
  isRunning : Bool
  balls : List Ball
  dropFrequency : ℚ
  stats : Statistics
  nextId : ℕ
deriving DecidableEq

/-- Initial component state from the useState and useRef initializers. -/
def initComponent : ComponentState :=
  { isRunning := true
    balls := []
    dropFrequency := 3/20
    stats := initStats
    nextId := 0 }

/-- toggleAnimation: flips the running flag and touches nothing else. -/
def toggleAnimation (s : ComponentState) : ComponentState :=
  { s with isRunning := !s.isRunning }

/-- Direct translation of reset(): stop, clear the balls, restore the default
drop frequency, zero the statistics, zero the id counter. -/
def reset (_s : ComponentState) : ComponentState :=
  { isRunning := false
    balls := []
    dropFrequency := 3/20
    stats := initStats
    nextId := 0 }

/-- Modelled from the spec: the drop-frequency control is an HTML range input
whose min, max and step attributes (0.05, 0.5, 0.05) are declared in the
source, but the widget that clamps the value it reports into [min, max] is
browser code outside this repository; per the spec the rate is clamped to the
documented range [0.05, 0.5]. -/
def rangeClampedValue (raw : ℚ) : ℚ :=
  min (1/2) (max (1/20) raw)

/-- Spawn-rate control: the onChange handler stores the value the range input
reports. -/
def setDropFrequencyControl (s : ComponentState) (raw : ℚ) : ComponentState :=
  { s with dropFrequency := rangeClampedValue raw }


lemma classify_total (s : Statistics) (b : Ball) : (classify s b).total = s.total + 1 := by
  unfold classify
  cases hr : b.hitRed <;> cases hb : b.hitBlue <;> simp [hr, hb]

lemma classify_both (s : Statistics) (b : Ball) :
    (classify s b).both = s.both + (if b.hitRed && b.hitBlue then 1 else 0) := by
  unfold classify
  cases hr : b.hitRed <;> cases hb : b.hitBlue <;> simp [hr, hb]

lemma classify_redOnly (s : Statistics) (b : Ball) :
    (classify s b).redOnly = s.redOnly + (if b.hitRed && !b.hitBlue then 1 else 0) := by
  unfold classify
  cases hr : b.hitRed <;> cases hb : b.hitBlue <;> simp [hr, hb]

lemma classify_blueOnly (s : Statistics) (b : Ball) :
    (classify s b).blueOnly = s.blueOnly + (if !b.hitRed && b.hitBlue then 1 else 0) := by
  unfold classify
  cases hr : b.hitRed <;> cases hb : b.hitBlue <;> simp [hr, hb]

lemma classify_neither (s : Statistics) (b : Ball) :
    (classify s b).neither = s.neither + (if !b.hitRed && !b.hitBlue then 1 else 0) := by
  unfold classify
  cases hr : b.hitRed <;> cases hb : b.hitBlue <;> simp [hr, hb]

lemma countStats_cons (s : Statistics) (a : Ball) (t : List Ball) :
    countStats s (a :: t) = countStats (classify s a) t := rfl

lemma countStats_total (l : List Ball) (s : Statistics) :
    (countStats s l).total = s.total + l.length := by
  induction l generalizing s with
  | nil => simp [countStats]
  | cons a t ih =>
      rw [countStats_cons, ih, classify_total, List.length_cons]
      omega

lemma countStats_both (l : List Ball) (s : Statistics) :
    (countStats s l).both = s.both + l.countP (fun b => b.hitRed && b.hitBlue) := by
  induction l generalizing s with
  | nil => simp [countStats]
  | cons a t ih =>
      rw [countStats_cons, ih, classify_both, List.countP_cons]
      by_cases h : (a.hitRed && a.hitBlue) = true <;> simp [h]
      omega

lemma countStats_redOnly (l : List Ball) (s : Statistics) :
    (countStats s l).redOnly = s.redOnly + l.countP (fun b => b.hitRed && !b.hitBlue) := by
  induction l generalizing s with
  | nil => simp [countStats]
  | cons a t ih =>
      rw [countStats_cons, ih, classify_redOnly, List.countP_cons]
      by_cases h : (a.hitRed && !a.hitBlue) = true <;> simp [h]
      omega

lemma countStats_blueOnly (l : List Ball) (s : Statistics) :
    (countStats s l).blueOnly = s.blueOnly + l.countP (fun b => !b.hitRed && b.hitBlue) := by
  induction l generalizing s with
  | nil => simp [countStats]
  | cons a t ih =>
      rw [countStats_cons, ih, classify_blueOnly, List.countP_cons]
      by_cases h : (!a.hitRed && a.hitBlue) = true <;> simp [h]
      omega

lemma countStats_neither (l : List Ball) (s : Statistics) :
    (countStats s l).neither = s.neither + l.countP (fun b => !b.hitRed && !b.hitBlue) := by
  induction l generalizing s with
  | nil => simp [countStats]
  | cons a t ih =>
      rw [countStats_cons, ih, classify_neither, List.countP_cons]
      by_cases h : (!a.hitRed && !a.hitBlue) = true <;> simp [h]
      omega

lemma countP_flags_partition (l : List Ball) :
    l.countP (fun b => b.hitRed && b.hitBlue) + l.countP (fun b => b.hitRed && !b.hitBlue)
      + l.countP (fun b => !b.hitRed && b.hitBlue) + l.countP (fun b => !b.hitRed && !b.hitBlue)
      = l.length := by
  induction l with
  | nil => simp
  | cons a t ih =>
      simp only [List.countP_cons, List.length_cons]
      cases hr : a.hitRed <;> cases hb : a.hitBlue <;> simp [hr, hb] <;> omega

lemma classify_inv (s : Statistics) (b : Ball) (h : statsInv s) : statsInv (classify s b) := by
  unfold statsInv at h ⊢
  unfold classify
  cases hr : b.hitRed <;> cases hb : b.hitBlue <;> simp [hr, hb] <;> omega

lemma countStats_inv (l : List Ball) (s : Statistics) (h : statsInv s) :
    statsInv (countStats s l) := by
  induction l generalizing s with
  | nil => simpa [countStats] using h
  | cons a t ih =>
      rw [countStats_cons]
      exact ih (classify s a) (classify_inv s a h)

lemma classify_le (s : Statistics) (b : Ball) : statsLe s (classify s b) := by
  unfold statsLe classify
  cases hr : b.hitRed <;> cases hb : b.hitBlue <;> simp [hr, hb]

lemma countStats_le (l : List Ball) (s : Statistics) : statsLe s (countStats s l) := by
  induction l generalizing s with
  | nil => exact ⟨le_refl _, le_refl _, le_refl _, le_refl _, le_refl _⟩
  | cons a t ih =>
      rw [countStats_cons]
      obtain ⟨a1, a2, a3, a4, a5⟩ := classify_le s a
      obtain ⟨c1, c2, c3, c4, c5⟩ := ih (classify s a)
      exact ⟨a1.trans c1, a2.trans c2, a3.trans c3, a4.trans c4, a5.trans c5⟩

lemma tick_stats_eq (L : ShelfLayout) (rnd : List (ℚ × ℚ)) (s : SimState) :
    (tick L rnd s).stats = countStats s.stats (retiredOf L rnd s) := rfl

/-- C1: starting from the all-zero initial statistics, after every completed
tick (and after every reset) the running statistics satisfy
redOnly + blueOnly + both + neither = total; all five counters live in ℕ, a
tick never decreases any of them, and only the explicit reset rewinds them
(to zero). -/
theorem stats_invariant_reachable :
    (∀ s, Reachable s → statsInv s.stats) ∧
    statsInv initSim.stats ∧
    (∀ (L : ShelfLayout) (rnd : List (ℚ × ℚ)) (s : SimState),
      statsLe s.stats (tick L rnd s).stats) ∧
    (∀ s : SimState, (resetSim s).stats = initStats) := by
  refine ⟨?_, ?_, ?_, ?_⟩
  · intro s hs
    induction hs with
    | start => simp [statsInv, initSim, initStats]
    | stepped L rnd s hR ih =>
        rw [tick_stats_eq]
        exact countStats_inv _ _ ih
    | cleared s hR ih => simp [resetSim, statsInv, initStats]
  · simp [statsInv, initSim, initStats]
  · intro L rnd s
    rw [tick_stats_eq]
    exact countStats_le _ _
  · intro s
    rfl

/-- Witness for C1: the invariant holds at the concrete initial state. -/
theorem stats_invariant_reachable_witness : statsInv initSim.stats :=
  stats_invariant_reachable.1 initSim Reachable.start

/-- C2: in every tick, each ball that is inactive at the end of the physics
update is handed to the classifier exactly once: the published list contains
only active balls, the total grows by exactly the number of retired balls,
each bucket grows by exactly the number of retired balls whose flag pair
selects it (both flags → both; red only → redOnly; blue only → blueOnly;
neither → neither), the four flag classes partition the retired batch, and a
ball with both flags set is counted in the both bucket and in no other. -/
theorem tick_classifies_each_retired_once (L : ShelfLayout) (rnd : List (ℚ × ℚ))
    (s : SimState) :
    ((tick L rnd s).balls.all fun b => b.active) = true ∧
    (tick L rnd s).stats.total = s.stats.total + (retiredOf L rnd s).length ∧
    (tick L rnd s).stats.both
      = s.stats.both + (retiredOf L rnd s).countP (fun b => b.hitRed && b.hitBlue) ∧
    (tick L rnd s).stats.redOnly
      = s.stats.redOnly + (retiredOf L rnd s).countP (fun b => b.hitRed && !b.hitBlue) ∧
    (tick L rnd s).stats.blueOnly
      = s.stats.blueOnly + (retiredOf L rnd s).countP (fun b => !b.hitRed && b.hitBlue) ∧
    (tick L rnd s).stats.neither
      = s.stats.neither + (retiredOf L rnd s).countP (fun b => !b.hitRed && !b.hitBlue) ∧
    (retiredOf L rnd s).countP (fun b => b.hitRed && b.hitBlue)
        + (retiredOf L rnd s).countP (fun b => b.hitRed && !b.hitBlue)
        + (retiredOf L rnd s).countP (fun b => !b.hitRed && b.hitBlue)
        + (retiredOf L rnd s).countP (fun b => !b.hitRed && !b.hitBlue)
      = (retiredOf L rnd s).length ∧
    (∀ (st : Statistics) (b : Ball),
      classify st { b with hitRed := true, hitBlue := true }
        = { st with both := st.both + 1, total := st.total + 1 }) := by
  refine ⟨?_, ?_, ?_, ?_, ?_, ?_, countP_flags_partition _, ?_⟩
  · simp [tick, List.all_eq_true, List.mem_filter]
  · rw [tick_stats_eq]
    exact countStats_total _ _
  · rw [tick_stats_eq]
    exact countStats_both _ _
  · rw [tick_stats_eq]
    exact countStats_redOnly _ _
  · rw [tick_stats_eq]
    exact countStats_blueOnly _ _
  · rw [tick_stats_eq]
    exact countStats_neither _ _
  · intro st b
    simp [classify]

lemma integrateBall_hitRed (b : Ball) : (integrateBall b).hitRed = b.hitRed := rfl

lemma integrateBall_hitBlue (b : Ball) : (integrateBall b).hitBlue = b.hitBlue := rfl

lemma resolveRed_hitRed_sticky (L : ShelfLayout) (c : Ball) (h : c.hitRed = true) :
    (resolveRed L c).hitRed = true := by
  unfold resolveRed
  split <;> simp [h]

lemma resolveRed_hitBlue (L : ShelfLayout) (c : Ball) :
    (resolveRed L c).hitBlue = c.hitBlue := by
  unfold resolveRed
  split <;> rfl

lemma resolveBlue_hitBlue_sticky (L : ShelfLayout) (c : Ball) (h : c.hitBlue = true) :
    (resolveBlue L c).hitBlue = true := by
  unfold resolveBlue
  split <;> simp [h]

lemma resolveBlue_hitRed (L : ShelfLayout) (c : Ball) :
    (resolveBlue L c).hitRed = c.hitRed := by
  unfold resolveBlue
  split <;> rfl

lemma resolveFloor_hitRed (c : Ball) : (resolveFloor c).hitRed = c.hitRed := by
  unfold resolveFloor
  split <;> [skip; rfl]
  split <;> rfl

lemma resolveFloor_hitBlue (c : Ball) : (resolveFloor c).hitBlue = c.hitBlue := by
  unfold resolveFloor
  split <;> [skip; rfl]
  split <;> rfl

lemma resolveSettle_hitRed (c : Ball) : (resolveSettle c).hitRed = c.hitRed := by
  unfold resolveSettle
  split <;> rfl

lemma resolveSettle_hitBlue (c : Ball) : (resolveSettle c).hitBlue = c.hitBlue := by
  unfold resolveSettle
  split <;> rfl

/-- C3: the collision flags are sticky across the physics update — a ball
whose hitRed (or hitBlue) flag is true before a tick still has it true after
the tick, whatever the layout and whatever else happens to the ball. -/
theorem collision_flags_sticky (L : ShelfLayout) (b : Ball) :
    (stepBall L { b with hitRed := true }).hitRed = true ∧
    (stepBall L { b with hitBlue := true }).hitBlue = true := by
  constructor
  · unfold stepBall
    split
    · rfl
    · rw [resolveSettle_hitRed, resolveFloor_hitRed, resolveBlue_hitRed]
      exact resolveRed_hitRed_sticky _ _ (by rw [integrateBall_hitRed])
  · unfold stepBall
    split
    · rfl
    · rw [resolveSettle_hitBlue, resolveFloor_hitBlue]
      exact resolveBlue_hitBlue_sticky _ _ (by rw [resolveRed_hitBlue, integrateBall_hitBlue])

/-- C6: reset() from any prior component state zeroes the total and all four
bucket counters, empties the live ball list, and rewinds the ball-id counter
to zero. -/
theorem reset_clears_state (s : ComponentState) :
    (reset s).stats.total = 0 ∧ (reset s).stats.redOnly = 0 ∧
    (reset s).stats.blueOnly = 0 ∧ (reset s).stats.both = 0 ∧
    (reset s).stats.neither = 0 ∧ (reset s).balls = [] ∧ (reset s).nextId = 0 := by
  simp [reset, initStats]

/-- C8 counterexample: the pause control is toggleAnimation, which flips the
running flag; from the initial (running) state, invoking it twice leaves the
component running while invoking it once leaves it paused, so the two are
different states. -/
theorem toggle_twice_counterexample :
    (toggleAnimation (toggleAnimation initComponent)).isRunning = true ∧
    (toggleAnimation initComponent).isRunning = false := by
  simp [toggleAnimation, initComponent]

/-- C8 amended: invoking the pause control twice in a row restores the
component to its state before both invocations (the toggle is an involution,
not idempotent), and an invocation never touches the ball list, the
statistics, the drop frequency, or the id counter — so no statistics are
double-counted and no spawn occurs either way. -/
theorem toggle_involution (s : ComponentState) :
    toggleAnimation (toggleAnimation s) = s ∧
    (toggleAnimation s).balls = s.balls ∧
    (toggleAnimation s).stats = s.stats ∧
    (toggleAnimation s).dropFrequency = s.dropFrequency ∧
    (toggleAnimation s).nextId = s.nextId := by
  cases s
  simp [toggleAnimation]

/-- C9: whatever raw value comes through the spawn-rate control, the stored
drop frequency afterwards lies in the documented range [0.05, 0.5]; the
clamping happens at the control boundary and is never a failure. -/
theorem drop_frequency_in_range (s : ComponentState) (raw : ℚ) :
    1/20 ≤ (setDropFrequencyControl s raw).dropFrequency ∧
    (setDropFrequencyControl s raw).dropFrequency ≤ 1/2 := by
  constructor
  · show (1:ℚ)/20 ≤ min (1/2) (max (1/20) raw)
    exact le_min (by norm_num) (le_max_left _ _)
  · show min ((1:ℚ)/2) (max (1/20) raw) ≤ 1/2
    exact min_le_left _ _

lemma layout_redWidth (pA pB pAandB : ℚ) :
    (getDynamicShelfLayout pA pB pAandB).redWidth = max (pA * (cfgWidth - 100)) 20 := rfl

lemma layout_blueWidth (pA pB pAandB : ℚ) :
    (getDynamicShelfLayout pA pB pAandB).blueWidth = max (pB * (cfgWidth - 100)) 20 := rfl

lemma layout_blueShelfX (pA pB pAandB : ℚ) :
    (getDynamicShelfLayout pA pB pAandB).blueShelfX
      = (getDynamicShelfLayout pA pB pAandB).redShelfX
        + (getDynamicShelfLayout pA pB pAandB).redWidth
        - max (pAandB * (cfgWidth - 100)) 0 := rfl

lemma max_zero_cancel (a w o : ℚ) (ho : 0 ≤ o) : max 0 (a + w - (a + w - o)) = o := by
  have h : a + w - (a + w - o) = o := by ring
  rw [h, max_eq_right ho]

lemma layout_overlapWidth (pA pB pAandB : ℚ) :
    (getDynamicShelfLayout pA pB pAandB).overlapWidth
      = max (pAandB * (cfgWidth - 100)) 0 :=
  max_zero_cancel _ _ _ (le_max_right _ _)

/-- C4 amended: region B always starts at region A's start + redWidth −
overlapWidth; P(A∩B)=0 gives overlapWidth = 0 and P(A∩B)>0 gives a strictly
positive overlapWidth; the bound overlapWidth ≤ min(redWidth, blueWidth)
holds whenever the inputs are consistent probabilities
(0 ≤ P(A∩B) ≤ P(A) and P(A∩B) ≤ P(B)) but not for arbitrary inputs (see the
counterexample). -/
theorem layout_overlap_geometry (pA pB pAandB : ℚ) :
    (getDynamicShelfLayout pA pB pAandB).blueShelfX
      = (getDynamicShelfLayout pA pB pAandB).redShelfX
        + (getDynamicShelfLayout pA pB pAandB).redWidth
        - (getDynamicShelfLayout pA pB pAandB).overlapWidth ∧
    (pAandB = 0 → (getDynamicShelfLayout pA pB pAandB).overlapWidth = 0) ∧
    (0 < pAandB → 0 < (getDynamicShelfLayout pA pB pAandB).overlapWidth) ∧
    (0 ≤ pAandB → pAandB ≤ pA → pAandB ≤ pB →
      (getDynamicShelfLayout pA pB pAandB).overlapWidth
        ≤ min (getDynamicShelfLayout pA pB pAandB).redWidth
            (getDynamicShelfLayout pA pB pAandB).blueWidth) := by
  refine ⟨?_, ?_, ?_, ?_⟩
  · rw [layout_overlapWidth, layout_blueShelfX]
  · intro h
    rw [layout_overlapWidth, h]
    norm_num
  · intro h
    rw [layout_overlapWidth]
    have hp : 0 < pAandB * (cfgWidth - 100) := by
      apply mul_pos h
      norm_num [cfgWidth]
    exact lt_max_iff.mpr (Or.inl hp)
  · intro h0 hA hB
    rw [layout_overlapWidth, layout_redWidth, layout_blueWidth]
    have hc : (0:ℚ) ≤ cfgWidth - 100 := by norm_num [cfgWidth]
    refine le_min ?_ ?_
    · exact max_le (le_max_of_le_left (mul_le_mul_of_nonneg_right hA hc))
        (le_max_of_le_right (by norm_num))
    · exact max_le (le_max_of_le_left (mul_le_mul_of_nonneg_right hB hc))
        (le_max_of_le_right (by norm_num))

/-- Witness for C4 at the default probabilities P(A)=P(B)=0.2, P(A∩B)=0.1,
and at P(A∩B)=0. -/
theorem layout_overlap_geometry_witness :
    0 < (getDynamicShelfLayout (1/5) (1/5) (1/10)).overlapWidth ∧
    (getDynamicShelfLayout (1/5) (1/5) (1/10)).overlapWidth
      ≤ min (getDynamicShelfLayout (1/5) (1/5) (1/10)).redWidth
          (getDynamicShelfLayout (1/5) (1/5) (1/10)).blueWidth ∧
    (getDynamicShelfLayout (1/5) (1/5) (0:ℚ)).overlapWidth = 0 :=
  ⟨(layout_overlap_geometry (1/5) (1/5) (1/10)).2.2.1 (by norm_num),
   (layout_overlap_geometry (1/5) (1/5) (1/10)).2.2.2 (by norm_num) (by norm_num) (by norm_num),
   (layout_overlap_geometry (1/5) (1/5) 0).2.1 rfl⟩

/-- C4 counterexample: the layout computation accepts the inputs P(A)=0.01,
P(B)=0.01, P(A∩B)=0.5 unchecked; there overlapWidth = 287.5 while
min(redWidth, blueWidth) = 20, so with P(A∩B) > 0 the claimed bound
overlapWidth ≤ min(redWidth, blueWidth) is false. -/
theorem layout_overlap_bound_counterexample :
    0 < ((1:ℚ)/2) ∧
    min (getDynamicShelfLayout (1/100) (1/100) (1/2)).redWidth
        (getDynamicShelfLayout (1/100) (1/100) (1/2)).blueWidth
      < (getDynamicShelfLayout (1/100) (1/100) (1/2)).overlapWidth := by
  constructor
  · norm_num
  · norm_num [getDynamicShelfLayout, cfgWidth, max_def, min_def]

lemma jsOr_isSome (v : JSNum) (d : ℚ) : (jsOr v d).isSome = true := by
  cases v with
  | none => rfl
  | some x =>
      by_cases hx : x = 0 <;> simp [jsOr, hx]

lemma jsOr_falsy (v : JSNum) (d : ℚ) (h : isFalsyNum v = true) : jsOr v d = some d := by
  cases v with
  | none => rfl
  | some x =>
      have hx : x = 0 := by simpa [isFalsyNum] using h
      simp [jsOr, hx]

lemma jsOr_not_falsy (v : JSNum) (d : ℚ) (hd : d ≠ 0) : isFalsyNum (jsOr v d) = false := by
  cases v with
  | none => simp [jsOr, isFalsyNum, hd]
  | some x =>
      by_cases hx : x = 0 <;> simp [jsOr, isFalsyNum, hx, hd]

/-- C5 amended: every probability getContextProbabilities hands downstream is
an ordinary number, never NaN — a NaN from getVariable is falsy and falls to
the nonzero literal default — but nothing clamps into [0,1]: a truthy
upstream value outside [0,1] is used unchanged by the region-width
computation (see the counterexample). -/
theorem no_nan_reaches_layout (u : UpstreamProbs) :
    (getContextProbabilities u).pA.isSome = true ∧
    (getContextProbabilities u).pB.isSome = true ∧
    (getContextProbabilities u).pAandB.isSome = true ∧
    (getContextProbabilities u).pAandNotB.isSome = true ∧
    (getContextProbabilities u).pBandNotA.isSome = true ∧
    (getContextProbabilities u).pNotAandNotB.isSome = true :=
  ⟨jsOr_isSome _ _, jsOr_isSome _ _, jsOr_isSome _ _,
   jsOr_isSome _ _, jsOr_isSome _ _, jsOr_isSome _ _⟩

/-- Upstream read where getVariable reports P(A) = 2 — truthy but far outside
[0, 1] — and ordinary values elsewhere. -/
def outOfRangeUpstream : UpstreamProbs :=
  { pA := some 2
    pB := some (1/5)
    pAandB := some (1/10)
    pAandNotB := some (1/10)
    pBandNotA := some (1/10)
    pNotAandNotB := some (7/10) }

/-- C5 counterexample: the truthy out-of-range upstream value 2 survives
getContextProbabilities unchanged and drives the region-width computation,
yielding redWidth = 2·575 = 1150: a value outside [0,1] does reach the
geometry, so clamping into [0,1] does not happen. -/
theorem out_of_range_reaches_layout :
    (getContextProbabilities outOfRangeUpstream).pA = some 2 ∧
    (1:ℚ) < 2 ∧
    (layoutFromContext outOfRangeUpstream).redWidth = 1150 := by
  refine ⟨rfl, by norm_num, ?_⟩
  norm_num [layoutFromContext, getContextProbabilities, jsOr, outOfRangeUpstream,
    getDynamicShelfLayout, cfgWidth, max_def]

/-- C10: a falsy upstream probability (NaN or exactly 0) is replaced by that
probability's nonzero default — 0.2 for P(A) and P(B), 0.1 for P(A∩B),
P(A∩¬B) and P(B∩¬A), 0.7 for P(¬A∩¬B) — and the value the component uses
downstream (geometry and expected-proportions display alike) is never NaN and
never 0. -/
theorem falsy_upstream_defaults (u : UpstreamProbs) :
    (isFalsyNum u.pA = true → (getContextProbabilities u).pA = some (1/5)) ∧
    (isFalsyNum u.pB = true → (getContextProbabilities u).pB = some (1/5)) ∧
    (isFalsyNum u.pAandB = true → (getContextProbabilities u).pAandB = some (1/10)) ∧
    (isFalsyNum u.pAandNotB = true → (getContextProbabilities u).pAandNotB = some (1/10)) ∧
    (isFalsyNum u.pBandNotA = true → (getContextProbabilities u).pBandNotA = some (1/10)) ∧
    (isFalsyNum u.pNotAandNotB = true → (getContextProbabilities u).pNotAandNotB = some (7/10)) ∧
    isFalsyNum (getContextProbabilities u).pA = false ∧
    isFalsyNum (getContextProbabilities u).pB = false ∧
    isFalsyNum (getContextProbabilities u).pAandB = false ∧
    isFalsyNum (getContextProbabilities u).pAandNotB = false ∧
    isFalsyNum (getContextProbabilities u).pBandNotA = false ∧
    isFalsyNum (getContextProbabilities u).pNotAandNotB = false :=
  ⟨fun h => jsOr_falsy _ _ h, fun h => jsOr_falsy _ _ h, fun h => jsOr_falsy _ _ h,
   fun h => jsOr_falsy _ _ h, fun h => jsOr_falsy _ _ h, fun h => jsOr_falsy _ _ h,
   jsOr_not_falsy _ _ (by norm_num), jsOr_not_falsy _ _ (by norm_num),
   jsOr_not_falsy _ _ (by norm_num), jsOr_not_falsy _ _ (by norm_num),
   jsOr_not_falsy _ _ (by norm_num), jsOr_not_falsy _ _ (by norm_num)⟩

/-- Upstream read where every getVariable call reports NaN. -/
def allNaNUpstream : UpstreamProbs :=
  { pA := none
    pB := none
    pAandB := none
    pAandNotB := none
    pBandNotA := none
    pNotAandNotB := none }

/-- Witness for C10: with every upstream read NaN, each used probability is
exactly its nonzero default. -/
theorem falsy_upstream_defaults_witness :
    (getContextProbabilities allNaNUpstream).pA = some (1/5) ∧
    (getContextProbabilities allNaNUpstream).pB = some (1/5) ∧
    (getContextProbabilities allNaNUpstream).pAandB = some (1/10) ∧
    (getContextProbabilities allNaNUpstream).pAandNotB = some (1/10) ∧
    (getContextProbabilities allNaNUpstream).pBandNotA = some (1/10) ∧
    (getContextProbabilities allNaNUpstream).pNotAandNotB = some (7/10) :=
  ⟨(falsy_upstream_defaults allNaNUpstream).1 rfl,
   (falsy_upstream_defaults allNaNUpstream).2.1 rfl,
   (falsy_upstream_defaults allNaNUpstream).2.2.1 rfl,
   (falsy_upstream_defaults allNaNUpstream).2.2.2.1 rfl,
   (falsy_upstream_defaults allNaNUpstream).2.2.2.2.1 rfl,
   (falsy_upstream_defaults allNaNUpstream).2.2.2.2.2.1 rfl⟩

lemma abs_damp_lt (v : ℚ) (h : |v| < 1/10) : |-|v| * (2/5)| < 1/10 := by
  rw [abs_mul, abs_neg, abs_abs]
  have h5 : |(2:ℚ)/5| = 2/5 := by
    rw [abs_of_nonneg]
    norm_num
  rw [h5]
  nlinarith [abs_nonneg v]

lemma resolveRed_vy_bound (L : ShelfLayout) (c : Ball) (h : |c.vy| < 1/10) :
    |(resolveRed L c).vy| < 1/10 := by
  unfold resolveRed
  split
  · exact abs_damp_lt c.vy h
  · exact h

lemma resolveBlue_vy_bound (L : ShelfLayout) (c : Ball) (h : |c.vy| < 1/10) :
    |(resolveBlue L c).vy| < 1/10 := by
  unfold resolveBlue
  split
  · exact abs_damp_lt c.vy h
  · exact h

lemma integrateBall_bounceCount (b : Ball) :
    (integrateBall b).bounceCount = b.bounceCount := rfl

lemma integrateBall_vy (b : Ball) :
    (integrateBall b).vy = b.vy + cfgGravity * cfgSpeedMultiplier := rfl

lemma resolveRed_bounceCount (L : ShelfLayout) (c : Ball) :
    (resolveRed L c).bounceCount = c.bounceCount := by
  unfold resolveRed
  split <;> rfl

lemma resolveBlue_bounceCount (L : ShelfLayout) (c : Ball) :
    (resolveBlue L c).bounceCount = c.bounceCount := by
  unfold resolveBlue
  split <;> rfl

lemma resolveFloor_retires (c : Ball) (hbc : 4 ≤ c.bounceCount) (hvy : |c.vy| < 1/10) :
    (resolveSettle (resolveFloor c)).active = false := by
  unfold resolveFloor
  split
  · split
    · next hcb => exact absurd hcb.1 (by omega)
    · unfold resolveSettle
      split <;> rfl
  · unfold resolveSettle
    split
    · rfl
    · next hno => exact absurd (Or.inr ⟨hbc, hvy⟩) hno

/-- C7 amended: a ball whose bounce budget is exhausted (bounceCount ≥ 4) and
whose vertical speed is below 0.075 — the 0.1 settling threshold minus the
0.025 the integration stage adds within the tick — is inactive after one
tick, whatever its position and flags; with a speed merely below the 0.1
threshold the ball can stay active for the tick (see the counterexample). -/
theorem exhausted_slow_ball_retires (L : ShelfLayout) (b : Ball)
    (hbc : 4 ≤ b.bounceCount) (hvy : |b.vy| < 3/40) :
    (stepBall L b).active = false := by
  unfold stepBall
  split
  · next h => exact h
  · have hg : cfgGravity * cfgSpeedMultiplier = 1/40 := by
      norm_num [cfgGravity, cfgSpeedMultiplier]
    have hq : |(1:ℚ)/40| = 1/40 := by
      rw [abs_of_nonneg]
      norm_num
    have h1 : |(integrateBall b).vy| < 1/10 := by
      rw [integrateBall_vy, hg]
      calc |b.vy + 1/40| ≤ |b.vy| + |(1:ℚ)/40| := abs_add _ _
        _ = |b.vy| + 1/40 := by rw [hq]
        _ < 3/40 + 1/40 := by linarith
        _ = 1/10 := by norm_num
    have h2 : |(resolveRed L (integrateBall b)).vy| < 1/10 :=
      resolveRed_vy_bound _ _ h1
    have h3 : |(resolveBlue L (resolveRed L (integrateBall b))).vy| < 1/10 :=
      resolveBlue_vy_bound _ _ h2
    have hb3 : 4 ≤ (resolveBlue L (resolveRed L (integrateBall b))).bounceCount := by
      rw [resolveBlue_bounceCount, resolveRed_bounceCount, integrateBall_bounceCount]
      exact hbc
    exact resolveFloor_retires _ hb3 h3

/-- Ball resting just above the floor with its bounce budget exhausted and a
small downward speed. -/
def slowBall : Ball :=
  { id := 1
    x := 300
    y := 296
    vx := 0
    vy := 1/20
    radius := 4
    hitRed := true
    hitBlue := true
    active := true
    bounceCount := 4 }

/-- Witness for C7 at a concrete slow exhausted ball under the default
layout. -/
theorem exhausted_slow_ball_retires_witness :
    4 ≤ slowBall.bounceCount ∧ |slowBall.vy| < 3/40 ∧
    (stepBall (getDynamicShelfLayout (1/5) (1/5) (1/10)) slowBall).active = false := by
  refine ⟨by norm_num [slowBall], ?_, ?_⟩
  · norm_num [slowBall, abs, max_def]
  · exact exhausted_slow_ball_retires _ _ (by norm_num [slowBall])
      (by norm_num [slowBall, abs, max_def])

/-- Ball at the apex of its final rebound: bounce budget exhausted, speed
0.09 under the 0.1 threshold, but mid-air far from the floor. -/
def apexBall : Ball :=
  { id := 2
    x := 0
    y := 100
    vx := 0
    vy := 9/100
    radius := 4
    hitRed := true
    hitBlue := true
    active := true
    bounceCount := 4 }

/-- C7 counterexample: the apex ball has bounceCount = 4 and vertical speed
0.09 < 0.1, yet after a full tick it is still active — integration raises its
speed to 0.115 before the settling check reads it, the check fails, and no
other retirement condition fires, refuting retirement within one tick. -/
theorem settle_threshold_counterexample :
    apexBall.active = true ∧ apexBall.bounceCount = 4 ∧ |apexBall.vy| < 1/10 ∧
    (stepBall (getDynamicShelfLayout (1/5) (1/5) (1/10)) apexBall).active = true := by
  refine ⟨rfl, rfl, ?_, ?_⟩
  · norm_num [apexBall, abs, max_def]
  · norm_num [stepBall, integrateBall, resolveRed, resolveBlue, resolveFloor, resolveSettle,
      apexBall, cfgHeight, cfgGravity, cfgSpeedMultiplier, cfgRedShelfY, cfgBlueShelfY,
      cfgShelfHeight, cfgBallRadius, abs, max_def]
